import Mathlib

/-!
Shallow embedding of `src/todoist.py` (the `TodoistAPI` client wrapper).

Python's dynamically typed values are modelled by `PyV`; raised exceptions
become `Except PyErr` results (error messages are elided, only the exception
class is kept).  Network traffic is modelled by an oracle function
`net : NetCall → Response` passed explicitly, and every definition returns
the list of network effects it performed alongside its result, so that
"no call was issued before the error" is a statement about that list.
-/

/-- A Python value, as far as the embedded code distinguishes them:
`None`, `bool`, `int`, `str` and `list`. -/
inductive PyV where
  | none
  | bool (b : Bool)
  | int (n : Int)
  | str (s : String)
  | list (l : List PyV)
deriving Repr

mutual

/-- Python `==` on `PyV` (note Python's numeric equality of `bool` and `int`:
`True == 1`). -/
def pyEq : PyV → PyV → Bool
  | .none, .none => true
  | .bool a, .bool b => a == b
  | .bool a, .int n => (if a then (1 : Int) else 0) == n
  | .int n, .bool b => n == (if b then (1 : Int) else 0)
  | .int a, .int b => a == b
  | .str a, .str b => a == b
  | .list a, .list b => pyEqList a b
  | _, _ => false

/-- Python `==` on lists, elementwise. -/
def pyEqList : List PyV → List PyV → Bool
  | [], [] => true
  | a :: as, b :: bs => pyEq a b && pyEqList as bs
  | _, _ => false

end

/-- Python truthiness: `bool(v)` is `False`. -/
def pyFalsy : PyV → Bool
  | .none => true
  | .bool b => !b
  | .int n => n == 0
  | .str s => s.isEmpty
  | .list l => l.isEmpty

/-- Python truthiness: `bool(v)` is `True`. -/
def pyTruthy (v : PyV) : Bool := !pyFalsy v

/-- `v is None`. -/
def isNone : PyV → Bool
  | .none => true
  | _ => false

/-- `type(v) is int`. -/
def isInt : PyV → Bool
  | .int _ => true
  | _ => false

/-- `type(v) is str`. -/
def isStr : PyV → Bool
  | .str _ => true
  | _ => false

/-- `type(v) is bool`. -/
def isBool : PyV → Bool
  | .bool _ => true
  | _ => false

/-- Python `str(v)` (list rendering elided: the embedded code never
stringifies a list). -/
def pyStr : PyV → String
  | .none => "None"
  | .bool b => if b then "True" else "False"
  | .int n => toString n
  | .str s => s
  | .list _ => "[list]"

/-- Python `str.upper()` (ASCII), written as a structural map so that it
reduces definitionally. -/
def pyUpper (s : String) : String := String.mk (s.data.map Char.toUpper)

/-- Python `str.lower()` (ASCII), written as a structural map so that it
reduces definitionally. -/
def pyLower (s : String) : String := String.mk (s.data.map Char.toLower)

/-- The exception classes the embedded code can raise (messages elided).
`httpError` is `requests.models.HTTPError`, carrying the response's status
code, as raised by `Response.raise_for_status`. -/
inductive PyErr where
  | valueError
  | typeError
  | indexError
  | attributeError
  | keyError
  | notImplementedError
  | httpError (status : Int)
deriving Repr, DecidableEq

/-- An HTTP response: its status code and its parsed JSON body
(`result.json()`), the latter kept abstract as a `PyV`. -/
structure Response where
  status_code : Int
  body : PyV
deriving Repr

/-- `requests.Response.raise_for_status`: raises `HTTPError` exactly for
4xx and 5xx status codes, and is a no-op otherwise. -/
def raise_for_status (r : Response) : Except PyErr Unit :=
  if 400 ≤ r.status_code ∧ r.status_code < 600 then
    .error (.httpError r.status_code)
  else
    .ok ()

/- Python `dict` with string keys, as an insertion-ordered association list
with unique keys. -/

/-- `k in d.keys()`. -/
def dictHas (d : List (String × String)) (k : String) : Bool :=
  d.any (fun p => p.1 == k)

/-- `d[k] = v`: replace in place if the key exists, else append. -/
def dictSet (d : List (String × String)) (k v : String) : List (String × String) :=
  if dictHas d k then d.map (fun p => if p.1 == k then (k, v) else p)
  else d ++ [(k, v)]

/-- `d.get(k)`. -/
def dictGet (d : List (String × String)) (k : String) : Option String :=
  (d.find? (fun p => p.1 == k)).map (fun p => p.2)

/-- `d.update(other)`. -/
def dictUpdate (d other : List (String × String)) : List (String × String) :=
  other.foldl (fun acc p => dictSet acc p.1 p.2) d

/-- Lookup in a JSON-payload dict (`List (String × PyV)`). -/
def payloadGet (d : List (String × PyV)) (k : String) : Option PyV :=
  (d.find? (fun p => p.1 == k)).map (fun p => p.2)

/-- One HTTP call as actually issued by `requests.get/post/delete`
(`todoist.py` lines 194-199): the verb, url, headers, POST body and GET
query parameters. -/
structure NetCall where
  verb : String
  url : String
  headers : List (String × String)
  body : List (String × PyV)
  params : List (String × PyV)

/-- `supported_http_methods` of `_do_request` (line 169). -/
def supported_http_methods : List String := ["GET", "POST", "DELETE"]

/-- Validation of `expected_status_code` (`_do_request` lines 176-184):
must be an `int` or a `list`, every element of the list must be an `int`;
a single `int` is wrapped into a one-element list. -/
def normalize_expected (e : PyV) : Except PyErr (List Int) :=
  match e with
  | .int n => .ok [n]
  | .list l =>
      if l.all (fun c => isInt c) then
        .ok (l.filterMap (fun c => match c with | .int n => some n | _ => Option.none))
      else .error .valueError
  | _ => .error .valueError

/-- Tail of `_do_request` (lines 203-208): if the status code is not among
the expected ones, call `raise_for_status`; then return the response. -/
def check_status (codes : List Int) (r : Response) : Except PyErr Response :=
  if codes.contains r.status_code then .ok r
  else
    match raise_for_status r with
    | .error e => .error e
    | .ok _ => .ok r

/-- Header merging of `_do_request` (lines 186-191): an empty headers dict
is replaced by the auth header; a non-empty one gets the auth header
`update`d in unless the caller already supplied `Authorization`. -/
def merge_auth (auth_header headers : List (String × String)) : List (String × String) :=
  if headers.isEmpty then auth_header
  else if dictHas headers "Authorization" then headers
  else dictUpdate headers auth_header

/-- The outcome of one `_do_request` call: the headers dict as seen by the
caller after the call (the source `update`s the caller's dict in place),
the network calls issued, and the returned response or raised exception. -/
structure DispatchResult where
  used_headers : List (String × String)
  calls : List NetCall
  result : Except PyErr Response

/-- `TodoistAPI._do_request` (lines 149-208).  `auth_header` is the
client's `self.auth_header`; `net` models the `requests` library.  The
verb is upper-cased, checked against the supported set (`ValueError` =
the spec's `UnsupportedMethod`), `expected_status_code` is validated and
normalised, the auth header is merged in, the single network call is
issued and the status code is checked. -/
def do_request (auth_header : List (String × String)) (net : NetCall → Response)
    (http_method : String) (url : String) (headers : List (String × String))
    (post_request_data : List (String × PyV))
    (get_request_url_parameters : List (String × PyV))
    (expected_status_code : PyV) : DispatchResult :=
  let m := pyUpper http_method
  if (supported_http_methods.contains m : Bool) = false then
    ⟨headers, [], .error .valueError⟩
  else
    match normalize_expected expected_status_code with
    | .error e => ⟨headers, [], .error e⟩
    | .ok codes =>
        let hdrs := merge_auth auth_header headers
        let caller_view := if headers.isEmpty then headers else hdrs
        let call : NetCall := ⟨m, url, hdrs, post_request_data, get_request_url_parameters⟩
        let resp := net call
        ⟨caller_view, [call], check_status codes resp⟩

/-- `TodoistAPI._do_post` (lines 109-134).  `default_headers` is the
state of the function's *mutable default argument* dict (`headers:dict={}`
is evaluated once in Python; the body mutates it in place), and
`headers_arg` is `some h` when the caller passed a headers dict.  `uuid1`
is the fresh value of `str(uuid.uuid1())` drawn for this call.  Returns
the new state of the default dict together with the dispatch result. -/
def do_post (auth_header : List (String × String)) (net : NetCall → Response)
    (default_headers : List (String × String)) (uuid1 : String)
    (url : String) (headers_arg : Option (List (String × String)))
    (data : List (String × PyV)) (expected_status_code : PyV) :
    List (String × String) × DispatchResult :=
  let h0 := headers_arg.getD default_headers
  let h1 := if dictHas h0 "Content-Type" then h0
            else dictSet h0 "Content-Type" "application/json"
  let h2 := if dictHas h1 "X-Request-Id" then h1
            else dictSet h1 "X-Request-Id" (pyUpper uuid1)
  let r := do_request auth_header net "POST" url h2 data [] expected_status_code
  let new_default :=
    match headers_arg with
    | Option.none => r.used_headers
    | some _ => default_headers
  (new_default, r)

/-- `TODOIST_COLORS` (lines 18-39), in Python dict insertion order:
`(id, hex code, symbolic name)`. -/
def TODOIST_COLORS : List (Int × String × String) :=
  [(30, "b8256f", "berry_red"), (40, "96c3eb", "light_blue"),
   (31, "db4035", "red"), (41, "4073ff", "blue"),
   (32, "ff9933", "orange"), (42, "884dff", "grape"),
   (33, "fad000", "yellow"), (43, "af38eb", "violet"),
   (34, "afb83b", "olive_green"), (44, "eb96eb", "lavender"),
   (35, "7ecc49", "lime_green"), (45, "e05194", "magenta"),
   (36, "299438", "green"), (46, "ff8d85", "salmon"),
   (37, "6accbc", "mint_green"), (47, "808080", "charcoal"),
   (38, "158fad", "teal"), (48, "b8b8b8", "grey"),
   (39, "14aaf5", "sky_blue"), (49, "ccac93", "taupe")]

/-- The color-resolution loop shared by `create_new_project` (lines 264-279)
and `update_project` (lines 383-398).  For each table entry, the source
evaluates `color == color_id or color.lower() == color_hex_code or
color.lower() == color_name`: when the first disjunct is false Python
evaluates `color.lower()`, which raises `AttributeError` whenever `color`
is not a string.  On a match the loop rebinds `color` to the entry's
integer id; an exhausted loop raises `ValueError`. -/
def resolve_color_loop (color : PyV) : List (Int × String × String) → Except PyErr PyV
  | [] => .error .valueError
  | (c, hex, nm) :: rest =>
      if pyEq color (.int c) then .ok (.int c)
      else
        match color with
        | .str s =>
            if pyLower s == hex || pyLower s == nm then .ok (.int c)
            else resolve_color_loop color rest
        | _ => .error .attributeError

/-- Color resolution over the full `TODOIST_COLORS` table. -/
def resolve_color (color : PyV) : Except PyErr PyV :=
  resolve_color_loop color TODOIST_COLORS

/-- `self.base_url` (line 86). -/
def base_url : String := "https://api.todoist.com/rest/v1/"

/-- URL of the `projects` endpoint. -/
def projects_url : String := base_url ++ "projects"

/-- URL of the `projects/{id}` endpoint. -/
def project_url (project_id : Int) : String :=
  base_url ++ "projects/" ++ toString project_id

/-- URL of the `sections` endpoint. -/
def sections_url : String := base_url ++ "sections"

/-- URL of the `tasks` endpoint. -/
def tasks_url : String := base_url ++ "tasks"

/-- A network round-trip as seen at the endpoint-method level: a GET of a
url, or a POST of a JSON payload with its `expected_status_code`
specification. -/
inductive Effect where
  | get (url : String)
  | post (url : String) (data : List (String × PyV)) (expected : PyV)

/-- The `_do_post` → `_do_request` path as used by the endpoint methods:
record the POST effect, validate the expected-status specification and
check the response's status (header handling is proved separately on
`do_post` / `do_request`; it does not influence these callers). -/
def post_and_check (url : String) (data : List (String × PyV)) (expected : PyV)
    (resp : Response) : List Effect × Except PyErr Response :=
  ([Effect.post url data expected],
   match normalize_expected expected with
   | .error e => .error e
   | .ok codes => check_status codes resp)

/-- A project object as returned by the remote service, restricted to the
fields the embedded code reads: `id`, `name`, `color`, `favorite`. -/
structure Project where
  id : Int
  name : String
  color : Int
  favorite : Bool

/-- The outcome the remote service gives a `get_project` call: the project
on success, or a raised exception `err` whose `getattr(ex, 'response',
None)` is `response` (`some (some st)` = a response carrying status `st`,
`some none` = a response without a status code, `none` = no response
attached). -/
inductive GetOutcome where
  | success (p : Project)
  | failure (err : PyErr) (response : Option (Option Int))

/-- `TodoistAPI.get_project` (lines 304-319): validate that the id is an
`int` (`TypeError` otherwise), GET `projects/{id}` and return the parsed
body.  The remote behaviour is the `outcome` oracle. -/
def get_project (outcome : GetOutcome) (project_id : PyV) :
    List Effect × Except PyErr Project :=
  match project_id with
  | .int n =>
      ([Effect.get (project_url n)],
       match outcome with
       | .success p => .ok p
       | .failure err _ => .error err)
  | _ => ([], .error .typeError)

/-- `TodoistAPI.project_exists` (lines 321-355): validate the id, call
`get_project`; a success is `true`; a raised exception is inspected —
no attached response or no status code re-raises it, status 404 yields
`false`, any other status re-raises it. -/
def project_exists (outcome : GetOutcome) (project_id : PyV) :
    List Effect × Except PyErr Bool :=
  match project_id with
  | .int n =>
      let tr := [Effect.get (project_url n)]
      match outcome with
      | .success _ => (tr, .ok true)
      | .failure err resp =>
          match resp with
          | Option.none => (tr, .error err)
          | some Option.none => (tr, .error err)
          | some (some st) =>
              if st == 404 then (tr, .ok false) else (tr, .error err)
  | _ => ([], .error .typeError)

/-- `TodoistAPI.create_new_project` (lines 227-302), with the remote state
as oracles: `all_projects` is what `get_all_projects` returns and
`post_resp` is the response to the final create POST.  The source order:
name type check; GET all projects and case-insensitive duplicate check
(`IndexError`); parent id type check (`TypeError`); parent existence check
(`IndexError`); color resolution; favorite type check (`ValueError`);
payload construction; POST to `projects` expecting 200; return
`result.json()`. -/
def create_new_project (all_projects : List Project) (post_resp : Response)
    (new_project_name parent_project_id color is_favorite : PyV) :
    List Effect × Except PyErr PyV :=
  match new_project_name with
  | .str name =>
      let tr := [Effect.get projects_url]
      if all_projects.any (fun p => pyLower p.name == pyLower name) then
        (tr, .error .indexError)
      else if !isNone parent_project_id && !isInt parent_project_id then
        (tr, .error .typeError)
      else if !isNone parent_project_id &&
          !(all_projects.any (fun p => pyEq (.int p.id) parent_project_id)) then
        (tr, .error .indexError)
      else
        match (if isNone color then Except.ok PyV.none else resolve_color color) with
        | .error e => (tr, .error e)
        | .ok rcolor =>
            if !isBool is_favorite then (tr, .error .valueError)
            else
              let data := [("name", PyV.str name)] ++
                (if isNone parent_project_id then [] else [("parent_id", parent_project_id)]) ++
                (if isNone color then [] else [("color", rcolor)]) ++
                (match is_favorite with
                 | PyV.bool true => [("favorite", is_favorite)]
                 | _ => [])
              let pc := post_and_check projects_url data (.int 200) post_resp
              (tr ++ pc.1,
               match pc.2 with
               | .error e => .error e
               | .ok r => .ok r.body)
  | _ => ([], .error .typeError)

/-- `TodoistAPI.update_project` (lines 357-439), remote state as oracles
(`outcome` serves both the `project_exists` probe and the following
`get_project`; `post_resp` answers the update POST).  Source order:
id type check; "at least one new value" check; existence check;
re-fetch of the project; color resolution; conflict check (`ValueError`
when every supplied value matches the current remote value); payload
construction; POST to `projects/{id}` expecting 204; return the raw
response. -/
def update_project (outcome : GetOutcome) (post_resp : Response)
    (project_id project_name color is_favorite : PyV) :
    List Effect × Except PyErr Response :=
  match project_id with
  | .int n =>
      if isNone project_name && isNone color && isNone is_favorite then
        ([], .error .valueError)
      else
        match project_exists outcome (.int n) with
        | (tr1, .error e) => (tr1, .error e)
        | (tr1, .ok b) =>
            if b = false then (tr1, .error .valueError)
            else
              match get_project outcome (.int n) with
              | (tr2, .error e) => (tr1 ++ tr2, .error e)
              | (tr2, .ok p) =>
                  let tr := tr1 ++ tr2
                  match (if isNone color then Except.ok PyV.none else resolve_color color) with
                  | .error e => (tr, .error e)
                  | .ok rcolor =>
                      let name_matches :=
                        if isNone project_name then true
                        else pyEq (.str p.name) project_name
                      let color_matches :=
                        if isNone color then true else pyEq (.int p.color) rcolor
                      let favorite_matches :=
                        if isNone is_favorite then true
                        else pyEq (.bool p.favorite) is_favorite
                      if name_matches && color_matches && favorite_matches then
                        (tr, .error .valueError)
                      else
                        let data :=
                          (if isNone project_name then [] else [("name", project_name)]) ++
                          (if isNone color then [] else [("color", rcolor)]) ++
                          (if isNone is_favorite then [] else [("favorite", is_favorite)])
                        let pc := post_and_check (project_url n) data (.int 204) post_resp
                        (tr ++ pc.1, pc.2)
  | _ => ([], .error .typeError)

/-- A task object as returned by the remote service, restricted to the
fields the embedded code reads: `id` and `project_id`. -/
structure TodoTask where
  id : Int
  project_id : Int

/-- `TodoistAPI.get_all_sections` (lines 467-492), remote state as oracles
(`all_projects` answers the embedded `get_all_projects` probe, `sections`
is the section-id list the sections GET returns).  With a `project_id`
it is type-checked, its existence is checked against all projects
(`ValueError` when absent), and the sections GET carries it as a
parameter. -/
def get_all_sections (all_projects : List Project) (sections : List Int)
    (project_id : PyV) : List Effect × Except PyErr (List Int) :=
  match project_id with
  | .none => ([Effect.get sections_url], .ok sections)
  | _ =>
      if !isInt project_id then ([], .error .typeError)
      else
        let tr := [Effect.get projects_url]
        if !(all_projects.any fun p => pyEq (.int p.id) project_id) then
          (tr, .error .valueError)
        else (tr ++ [Effect.get sections_url], .ok sections)

/-- The `for dv in due_values` loop of `create_new_task` (lines 766-771):
skip `None`s, raise `ValueError` at the first non-string, count the rest. -/
def due_count_loop : List PyV → Except PyErr Nat
  | [] => .ok 0
  | dv :: rest =>
      if isNone dv then due_count_loop rest
      else if !isStr dv then .error .valueError
      else
        match due_count_loop rest with
        | .error e => .error e
        | .ok i => .ok (i + 1)

/-- The POST payload of `create_new_task` (lines 795-805): the base dict
keeps every field (including `None`s), then exactly one of the `due_*`
values is appended — `due_string` first, by `if`/`elif`. -/
def task_payload (task_name description project_id section_id parent_id order
    label_ids priority due_lang assignee due_string due_date due_datetime : PyV) :
    List (String × PyV) :=
  [("content", task_name), ("description", description),
   ("project_id", project_id), ("section_id", section_id),
   ("parent_id", parent_id), ("order", order), ("label_ids", label_ids),
   ("priority", priority), ("due_lang", due_lang), ("assignee", assignee)] ++
  (if !isNone due_string then [("due_string", due_string)]
   else if !isNone due_date then [("due_date", due_date)]
   else if !isNone due_datetime then [("due_datetime", due_datetime)]
   else [])

/-- The project-existence step of `create_new_task` (lines 697-700): a
supplied project id must denote an existing project. -/
def task_project_step (outcome : GetOutcome) (project_id : PyV) :
    List Effect × Except PyErr Unit :=
  if isNone project_id then ([], .ok ())
  else
    match project_exists outcome project_id with
    | (tr, .error e) => (tr, .error e)
    | (tr, .ok b) => if b then (tr, .ok ()) else (tr, .error .valueError)

/-- The section-validation step of `create_new_task` (lines 702-710): a
supplied section id requires a project id and must be among the project's
sections. -/
def task_section_step (all_projects : List Project) (project_sections : List Int)
    (project_id section_id : PyV) : List Effect × Except PyErr Unit :=
  if isNone section_id then ([], .ok ())
  else if isNone project_id then ([], .error .valueError)
  else
    match get_all_sections all_projects project_sections project_id with
    | (tr, .error e) => (tr, .error e)
    | (tr, .ok ids) =>
        if ids.any (fun i => pyEq (.int i) section_id) then (tr, .ok ())
        else (tr, .error .valueError)

/-- The parent-task step of `create_new_task` (lines 712-747): type check,
existence check against the active tasks, and project-id agreement —
returning the (possibly inherited from the parent) project id. -/
def task_parent_step (active_tasks : List TodoTask) (project_id parent_id : PyV) :
    List Effect × Except PyErr PyV :=
  if isNone parent_id then ([], .ok project_id)
  else if !isInt parent_id then ([], .error .valueError)
  else
    let tr := [Effect.get tasks_url]
    if !(active_tasks.any fun t => pyEq (.int t.id) parent_id) then
      (tr, .error .valueError)
    else
      match active_tasks.find? (fun t => pyEq (.int t.id) parent_id) with
      | Option.none => (tr, .error .keyError)
      | some pt =>
          if isNone project_id then (tr, .ok (PyV.int pt.project_id))
          else if !pyEq project_id (.int pt.project_id) then
            (tr, .error .valueError)
          else (tr, .ok project_id)

/-- `TodoistAPI.create_new_task` (lines 662-811), remote state as oracles
(`outcome` answers the `project_exists` probe, `all_projects` and
`project_sections` the section checks, `active_tasks` the parent-task
lookup, `post_resp` the final POST).  Source order: task-name check;
`str()` of the description; project existence (`task_project_step`);
section check (`task_section_step`); parent-task check
(`task_parent_step`); order check; priority check; `due_*` validation;
defaulting of `due_string` to `"Tomorrow"` when no due value survives;
`due_lang` gate (`NotImplementedError` unless `"EN"`); assignee gate
(always an error when truthy); payload construction and POST to `tasks`
expecting 200. -/
def create_new_task (outcome : GetOutcome) (all_projects : List Project)
    (project_sections : List Int) (active_tasks : List TodoTask) (post_resp : Response)
    (task_name description project_id section_id parent_id order label_ids priority
      due_string due_date due_datetime due_lang assignee : PyV) :
    List Effect × Except PyErr PyV :=
  if pyFalsy task_name || !isStr task_name then ([], .error .valueError)
  else
    let descr := if isNone description then PyV.none else PyV.str (pyStr description)
    match task_project_step outcome project_id with
    | (tr1, .error e) => (tr1, .error e)
    | (tr1, .ok _) =>
        match task_section_step all_projects project_sections project_id section_id with
        | (tr2, .error e) => (tr1 ++ tr2, .error e)
        | (tr2, .ok _) =>
            match task_parent_step active_tasks project_id parent_id with
            | (tr3, .error e) => (tr1 ++ tr2 ++ tr3, .error e)
            | (tr3, .ok pid2) =>
                let tr := tr1 ++ tr2 ++ tr3
                if (if isNone order then false
                    else match order with
                         | .int v => decide (v ≤ 0)
                         | _ => true) then (tr, .error .valueError)
                else if (if isNone priority then false
                         else !(([1, 2, 3, 4] : List Int).any
                                  (fun k => pyEq priority (.int k)))) then
                  (tr, .error .valueError)
                else
                  match (if [due_string, due_date, due_datetime].any pyTruthy then
                           due_count_loop [due_string, due_date, due_datetime]
                         else Except.ok 0) with
                  | .error e => (tr, .error e)
                  | .ok i =>
                      if 1 < i then (tr, .error .valueError)
                      else
                        let due_string2 :=
                          if pyFalsy due_date && pyFalsy due_datetime then
                            (if isNone due_string then PyV.str "Tomorrow" else due_string)
                          else due_string
                        if !pyEq due_lang (.str "EN") then
                          (tr, .error .notImplementedError)
                        else if pyTruthy assignee then
                          (tr, .error (if !isInt assignee then .valueError
                                       else .notImplementedError))
                        else
                          let payload := task_payload task_name descr pid2 section_id
                            parent_id order label_ids priority due_lang assignee
                            due_string2 due_date due_datetime
                          let pc := post_and_check tasks_url payload (.int 200) post_resp
                          (tr ++ pc.1,
                           match pc.2 with
                           | .error e => .error e
                           | .ok r => .ok r.body)

/-- Closed form of `check_status`: accepted codes and non-error codes give
back the response, 4xx/5xx codes outside the accepted set raise. -/
theorem check_status_spec (codes : List Int) (r : Response) :
    check_status codes r =
      (if codes.contains r.status_code then Except.ok r
       else if 400 ≤ r.status_code ∧ r.status_code < 600 then
         Except.error (PyErr.httpError r.status_code)
       else Except.ok r) := by
  unfold check_status raise_for_status
  by_cases h1 : (codes.contains r.status_code) = true
  · rw [if_pos h1, if_pos h1]
  · rw [if_neg h1, if_neg h1]
    by_cases h2 : 400 ≤ r.status_code ∧ r.status_code < 600
    · rw [if_pos h2, if_pos h2]
    · rw [if_neg h2, if_neg h2]

/-- C1 (amended): for every `_do_request` call with a supported verb and an
acceptable-status specification that is a single integer or a list of
integers, exactly one network call is issued and the dispatcher returns the
raw response when the response's status code is in the acceptable set;
for a status code outside the set it raises `HttpError` carrying the
original status code when that code is an HTTP error code (4xx/5xx), and —
deviating from the original claim — returns the raw response unchanged for
any other status code outside the set, because `raise_for_status` only
raises for 4xx/5xx. -/
theorem dispatcher_status_check
    (auth : List (String × String)) (net : NetCall → Response)
    (m url : String) (headers : List (String × String))
    (pdata params : List (String × PyV)) (spec : PyV) (codes : List Int)
    (hm : supported_http_methods.contains (pyUpper m) = true)
    (hc : normalize_expected spec = .ok codes) :
    (do_request auth net m url headers pdata params spec).calls =
      [⟨pyUpper m, url, merge_auth auth headers, pdata, params⟩] ∧
    (do_request auth net m url headers pdata params spec).result =
      (let resp := net ⟨pyUpper m, url, merge_auth auth headers, pdata, params⟩
       if codes.contains resp.status_code then Except.ok resp
       else if 400 ≤ resp.status_code ∧ resp.status_code < 600 then
         Except.error (PyErr.httpError resp.status_code)
       else Except.ok resp) := by
  simp only [do_request, hm, hc, Bool.true_eq_false, if_false]
  exact ⟨trivial, check_status_spec codes _⟩

/-- C1, counterexample to the claim as stated: with the acceptable-status
specification `404` (a single integer) and a response of status 200, the
dispatcher returns the raw response even though 200 is not in the
acceptable set, instead of raising `HttpError` — `raise_for_status` does
nothing for a 2xx code. -/
theorem dispatcher_status_check_cex :
    (do_request [("Authorization", "Bearer t")] (fun c => ⟨200, PyV.none⟩)
        "GET" "u" [] [] [] (PyV.int 404)).result = .ok ⟨200, PyV.none⟩ ∧
    ([(404 : Int)].contains 200) = false := by
  exact ⟨rfl, rfl⟩

/-- Witness for C1 at a concrete input: verb GET, acceptable statuses
`[200, 204]`, response status 500 → `HttpError 500`. -/
theorem dispatcher_status_check_witness :
    (do_request [("Authorization", "Bearer t")] (fun c => ⟨500, PyV.none⟩)
        "GET" "u" [] [] [] (PyV.list [PyV.int 200, PyV.int 204])).result =
      .error (.httpError 500) := by
  have h := dispatcher_status_check [("Authorization", "Bearer t")]
    (fun c => ⟨500, PyV.none⟩) "GET" "u" [] [] []
    (PyV.list [PyV.int 200, PyV.int 204]) [200, 204] rfl rfl
  rw [h.2]
  norm_num [List.contains]

/-- C2 (amended): for every `_do_request` call whose verb, after the
upper-casing the dispatcher applies, is not in the supported set
{GET, POST, DELETE}, the call raises `ValueError` (the spec's
`UnsupportedMethod`) and issues no network call at all. -/
theorem dispatcher_unsupported_verb
    (auth : List (String × String)) (net : NetCall → Response)
    (m url : String) (headers : List (String × String))
    (pdata params : List (String × PyV)) (spec : PyV)
    (hm : supported_http_methods.contains (pyUpper m) = false) :
    (do_request auth net m url headers pdata params spec).calls = [] ∧
    (do_request auth net m url headers pdata params spec).result =
      .error .valueError := by
  simp only [do_request, hm]
  exact ⟨rfl, rfl⟩

/-- C2, counterexample to the claim as stated: the verb `"get"` is not an
element of the supported set {GET, POST, DELETE}, yet the dispatcher
issues a network call (a GET, after upper-casing) and returns the response
instead of raising `UnsupportedMethod`. -/
theorem dispatcher_unsupported_verb_cex :
    supported_http_methods.contains "get" = false ∧
    (do_request [("Authorization", "Bearer t")] (fun c => ⟨200, PyV.none⟩)
        "get" "u" [] [] [] (PyV.int 200)).calls =
      [⟨"GET", "u", [("Authorization", "Bearer t")], [], []⟩] ∧
    (do_request [("Authorization", "Bearer t")] (fun c => ⟨200, PyV.none⟩)
        "get" "u" [] [] [] (PyV.int 200)).result = .ok ⟨200, PyV.none⟩ := by
  exact ⟨rfl, rfl, rfl⟩

/-- Witness for C2 at a concrete input: verb `"PATCH"` → `ValueError`
(`UnsupportedMethod`) and no network call. -/
theorem dispatcher_unsupported_verb_witness :
    (do_request [("Authorization", "Bearer t")] (fun c => ⟨200, PyV.none⟩)
        "PATCH" "u" [] [] [] (PyV.int 200)).calls = [] ∧
    (do_request [("Authorization", "Bearer t")] (fun c => ⟨200, PyV.none⟩)
        "PATCH" "u" [] [] [] (PyV.int 200)).result = .error .valueError :=
  dispatcher_unsupported_verb [("Authorization", "Bearer t")]
    (fun c => ⟨200, PyV.none⟩) "PATCH" "u" [] [] [] (PyV.int 200) rfl

/-- C3 (code bug): the source comments that Todoist wants a fresh UUID per
POST (line 130), but `_do_post`'s `headers` default is a *mutable default
argument*: the first POST issued without caller headers stores its
`X-Request-Id` (and `Content-Type`) into the shared default dict, so the
second such POST finds `X-Request-Id` already present and reuses the first
call's identifier instead of its own fresh UUID (`"bbbb"` here). -/
theorem do_post_stale_request_id :
    ((do_post [("Authorization", "Bearer t")] (fun y => ⟨200, PyV.none⟩) []
        "aaaa" "https://api.todoist.com/rest/v1/projects" Option.none []
        (PyV.int 200)).2.calls.map fun c => dictGet c.headers "X-Request-Id") =
      [some "AAAA"] ∧
    ((do_post [("Authorization", "Bearer t")] (fun y => ⟨200, PyV.none⟩)
        ((do_post [("Authorization", "Bearer t")] (fun y => ⟨200, PyV.none⟩) []
            "aaaa" "https://api.todoist.com/rest/v1/projects" Option.none []
            (PyV.int 200)).1)
        "bbbb" "https://api.todoist.com/rest/v1/projects" Option.none []
        (PyV.int 200)).2.calls.map fun c => dictGet c.headers "X-Request-Id") =
      [some "AAAA"] ∧
    pyUpper "bbbb" = "BBBB" ∧ "AAAA" ≠ "BBBB" := by
  exact ⟨rfl, rfl, rfl, by decide⟩

/-- C4 (code bug): the color-resolution loop of `create_new_project` /
`update_project` evaluates `color.lower()` whenever `color` differs from
the table entry's id, so every integer color id except 30 (the first key
in insertion order) raises `AttributeError` instead of resolving — the
code's own docstring promises "a new color id, name, or hex code".
String forms (name or hex code, case-insensitively) do resolve, and an
unknown string raises `ValueError` as the claim says. -/
theorem resolve_color_int_crash :
    resolve_color (PyV.int 49) = .error .attributeError ∧
    resolve_color (PyV.int 30) = .ok (PyV.int 30) ∧
    resolve_color (PyV.str "taupe") = .ok (PyV.int 49) ∧
    resolve_color (PyV.str "TAUPE") = .ok (PyV.int 49) ∧
    resolve_color (PyV.str "CCAC93") = .ok (PyV.int 49) ∧
    resolve_color (PyV.str "no_such_color") = .error .valueError ∧
    (create_new_project [] ⟨200, PyV.none⟩ (PyV.str "P") PyV.none (PyV.int 49)
        (PyV.bool false)).2 = .error .attributeError := by
  exact ⟨rfl, rfl, rfl, rfl, rfl, rfl, rfl⟩

/-- C5: for every integer project id, `project_exists` returns `true` when
the underlying `get_project` succeeds, returns `false` when `get_project`
raises an error carrying a response with status code 404, and re-raises
the original error when the carried response has any other status code. -/
theorem project_exists_spec (n : Int) (outcome : GetOutcome) :
    (∀ p, outcome = .success p →
        (project_exists outcome (.int n)).2 = .ok true) ∧
    (∀ err, outcome = .failure err (some (some 404)) →
        (project_exists outcome (.int n)).2 = .ok false) ∧
    (∀ err st, outcome = .failure err (some (some st)) → st ≠ 404 →
        (project_exists outcome (.int n)).2 = .error err) := by
  refine ⟨?_, ?_, ?_⟩
  · intro p h
    subst h
    rfl
  · intro err h
    subst h
    rfl
  · intro err st h hst
    subst h
    simp only [project_exists]
    rw [if_neg]
    simp only [beq_iff_eq]
    exact hst

/-- Witness for C5 at concrete inputs: a success, a 404 failure and a 500
failure. -/
theorem project_exists_spec_witness :
    (project_exists (.success ⟨1, "A", 30, false⟩) (.int 1)).2 = .ok true ∧
    (project_exists (.failure (.httpError 404) (some (some 404))) (.int 1)).2 =
      .ok false ∧
    (project_exists (.failure (.httpError 500) (some (some 500))) (.int 1)).2 =
      .error (.httpError 500) := by
  refine ⟨(project_exists_spec 1 _).1 _ rfl, (project_exists_spec 1 _).2.1 _ rfl,
    (project_exists_spec 1 _).2.2 _ 500 rfl (by decide)⟩

/-- `resolve_color` on `None` raises `AttributeError` at the first table
entry (`None` has no `.lower()`). -/
theorem resolve_color_none_err :
    resolve_color PyV.none = Except.error PyErr.attributeError := rfl

set_option maxHeartbeats 1000000 in

/-- C6: an `update_project` call on an existing project, where at least one
new value is supplied and every supplied value (name, resolved color,
favorite flag) equals the current remote value, raises `ValueError` (the
spec's `Conflict`) after the two GET probes, and no POST is issued. -/
theorem update_project_conflict (p : Project) (resp : Response) (n : Int)
    (project_name color is_favorite : PyV)
    (hsome : ¬(project_name = PyV.none ∧ color = PyV.none ∧ is_favorite = PyV.none))
    (hname : project_name = PyV.none ∨ project_name = PyV.str p.name)
    (hcolor : color = PyV.none ∨ resolve_color color = .ok (PyV.int p.color))
    (hfav : is_favorite = PyV.none ∨ pyEq (PyV.bool p.favorite) is_favorite = true) :
    update_project (.success p) resp (PyV.int n) project_name color is_favorite =
      ([Effect.get (project_url n), Effect.get (project_url n)], .error .valueError) ∧
    ∀ u d x, Effect.post u d x ∉
      (update_project (.success p) resp (PyV.int n) project_name color is_favorite).1 := by
  have key : update_project (.success p) resp (PyV.int n) project_name color is_favorite =
      ([Effect.get (project_url n), Effect.get (project_url n)], .error .valueError) := by
    rcases hname with h1 | h1 <;> subst h1 <;>
      rcases hcolor with h2 | h2 <;> rcases hfav with h3 | h3
    · exact absurd ⟨rfl, h2, h3⟩ hsome
    · subst h2
      cases is_favorite <;>
        simp_all [update_project, project_exists, get_project, pyEq, isNone]
    · subst h3
      cases color <;>
        simp_all [update_project, project_exists, get_project, pyEq, isNone,
          resolve_color_none_err]
    · cases color <;> cases is_favorite <;>
        simp_all [update_project, project_exists, get_project, pyEq, isNone,
          resolve_color_none_err]
    · subst h2; subst h3
      simp_all [update_project, project_exists, get_project, pyEq, isNone]
    · subst h2
      cases is_favorite <;>
        simp_all [update_project, project_exists, get_project, pyEq, isNone]
    · subst h3
      cases color <;>
        simp_all [update_project, project_exists, get_project, pyEq, isNone,
          resolve_color_none_err]
    · cases color <;> cases is_favorite <;>
        simp_all [update_project, project_exists, get_project, pyEq, isNone,
          resolve_color_none_err]
  refine ⟨key, ?_⟩
  intro u d x hmem
  rw [key] at hmem
  simp at hmem

/-- Witness for C6 at a concrete input: updating project 1 (current name
"Home", color 30, not favorite) with name "Home" and color "berry_red"
(which resolves to 30) raises the conflict `ValueError` with no POST. -/
theorem update_project_conflict_witness :
    update_project (.success ⟨1, "Home", 30, false⟩) ⟨204, PyV.none⟩ (PyV.int 1)
        (PyV.str "Home") (PyV.str "berry_red") PyV.none =
      ([Effect.get (project_url 1), Effect.get (project_url 1)],
       .error .valueError) :=
  (update_project_conflict ⟨1, "Home", 30, false⟩ ⟨204, PyV.none⟩ 1
    (PyV.str "Home") (PyV.str "berry_red") PyV.none
    (by intro h; cases h.1) (Or.inr rfl) (Or.inr rfl) (Or.inl rfl)).1

/-- C7: calling `create_new_project` with name "Test" and color "taupe",
when no existing project is named "Test" (case-insensitively) and the
service answers the POST with status 200, resolves "taupe" to the integer
id 49, issues a POST to the `projects` endpoint with body
`{"name": "Test", "color": 49}` and acceptable status 200, and returns the
parsed response project object. -/
theorem create_project_taupe_scenario (projects : List Project) (resp : Response)
    (hdup : (projects.any fun p => pyLower p.name == pyLower "Test") = false)
    (hstatus : resp.status_code = 200) :
    create_new_project projects resp (PyV.str "Test") PyV.none (PyV.str "taupe")
        (PyV.bool false) =
      ([Effect.get projects_url,
        Effect.post projects_url [("name", PyV.str "Test"), ("color", PyV.int 49)]
          (PyV.int 200)],
       .ok resp.body) := by
  have hc : resolve_color (PyV.str "taupe") = .ok (PyV.int 49) := rfl
  simp [create_new_project, hdup, hc, isNone, isBool, post_and_check,
    normalize_expected, check_status, hstatus]

/-- Witness for C7 at a concrete input: no pre-existing projects and a 200
response whose body is the created project object. -/
theorem create_project_taupe_scenario_witness :
    create_new_project [] ⟨200, PyV.list [PyV.int 2203306141]⟩ (PyV.str "Test")
        PyV.none (PyV.str "taupe") (PyV.bool false) =
      ([Effect.get projects_url,
        Effect.post projects_url [("name", PyV.str "Test"), ("color", PyV.int 49)]
          (PyV.int 200)],
       .ok (PyV.list [PyV.int 2203306141])) :=
  create_project_taupe_scenario [] ⟨200, PyV.list [PyV.int 2203306141]⟩ rfl rfl

/-- C9: the duplicate-name check of `create_new_project` is
case-insensitive — whenever some existing project's name equals the
requested name ignoring letter case, the call raises `IndexError` right
after the projects GET, and no POST is issued. -/
theorem create_project_duplicate_case_insensitive (projects : List Project)
    (resp : Response) (name : String) (parent color fav : PyV) (p : Project)
    (hp : p ∈ projects) (hname : pyLower p.name = pyLower name) :
    create_new_project projects resp (PyV.str name) parent color fav =
      ([Effect.get projects_url], .error .indexError) ∧
    ∀ u d x, Effect.post u d x ∉
      (create_new_project projects resp (PyV.str name) parent color fav).1 := by
  have hany : (projects.any fun q => pyLower q.name == pyLower name) = true := by
    rw [List.any_eq_true]
    exact ⟨p, hp, by simp [hname]⟩
  have key : create_new_project projects resp (PyV.str name) parent color fav =
      ([Effect.get projects_url], .error .indexError) := by
    simp [create_new_project, hany]
  refine ⟨key, ?_⟩
  intro u d x hmem
  rw [key] at hmem
  simp at hmem

/-- Witness for C9 at a concrete input: an existing project "Test" blocks
the creation of "TEST". -/
theorem create_project_duplicate_case_insensitive_witness :
    create_new_project [⟨1, "Test", 30, false⟩] ⟨200, PyV.none⟩ (PyV.str "TEST")
        PyV.none PyV.none (PyV.bool false) =
      ([Effect.get projects_url], .error .indexError) :=
  (create_project_duplicate_case_insensitive [⟨1, "Test", 30, false⟩] ⟨200, PyV.none⟩
    "TEST" PyV.none PyV.none (PyV.bool false) ⟨1, "Test", 30, false⟩
    (by simp) rfl).1

/-- `check_status` can only raise `HttpError`. -/
theorem check_status_error (codes : List Int) (r : Response) (e : PyErr)
    (h : check_status codes r = .error e) : ∃ s, e = .httpError s := by
  rw [check_status_spec] at h
  by_cases h1 : (codes.contains r.status_code) = true
  · rw [if_pos h1] at h
    cases h
  · rw [if_neg h1] at h
    by_cases h2 : 400 ≤ r.status_code ∧ r.status_code < 600
    · rw [if_pos h2] at h
      simp only [Except.error.injEq] at h
      exact ⟨r.status_code, h.symm⟩
    · rw [if_neg h2] at h
      cases h

/-- C8, counterexample to the claim as stated: `create_new_project` with a
valid name but a parent id of the wrong type (a string) first issues the
projects GET (a remote round-trip) and only then detects the locally
invalid parent id — so local validation is *not* completed before the
dispatcher is called. -/
theorem create_project_validation_order_cex :
    (create_new_project [] ⟨200, PyV.none⟩ (PyV.str "A") (PyV.str "oops") PyV.none
        (PyV.bool false)).2 = .error .typeError ∧
    (create_new_project [] ⟨200, PyV.none⟩ (PyV.str "A") (PyV.str "oops") PyV.none
        (PyV.bool false)).1 = [Effect.get projects_url] := by
  exact ⟨rfl, rfl⟩

/-- C8 (amended): in `create_new_project`, only the new-name type check
precedes the first dispatcher call (a bad name means no network call at
all); the remaining local validations (parent-id type, parent existence,
color, favorite flag) run after the duplicate-name GET round-trip but
still before the create POST: whenever the call fails with any error other
than `HttpError`, no POST was issued. -/
theorem create_project_validation_order (projects : List Project) (resp : Response)
    (name parent color fav : PyV) :
    (isStr name = false →
      create_new_project projects resp name parent color fav =
        ([], .error .typeError)) ∧
    (∀ e, (create_new_project projects resp name parent color fav).2 = .error e →
      (∀ s, e ≠ .httpError s) →
      ∀ u d x, Effect.post u d x ∉
        (create_new_project projects resp name parent color fav).1) := by
  constructor
  · intro h
    cases name <;> first | rfl | simp [isStr] at h
  · intro e he hne u d x hmem
    cases name with
    | none => simp [create_new_project] at hmem
    | bool b => simp [create_new_project] at hmem
    | int k => simp [create_new_project] at hmem
    | list l => simp [create_new_project] at hmem
    | str s =>
      by_cases hdup : (projects.any fun p => pyLower p.name == pyLower s) = true
      · simp [create_new_project, hdup] at hmem
      · by_cases hp1 : (!isNone parent && !isInt parent) = true
        · simp [create_new_project, hdup, hp1] at hmem
        · by_cases hp2 :
            (!isNone parent && !(projects.any fun p => pyEq (.int p.id) parent)) = true
          · simp [create_new_project, hdup, hp1, hp2] at hmem
          · rcases hres : (if isNone color then Except.ok PyV.none
                else resolve_color color) with ec | rc
            · simp [create_new_project, hdup, hp1, hp2, hres] at hmem
            · by_cases hfb : (!isBool fav) = true
              · simp [create_new_project, hdup, hp1, hp2, hres, hfb] at hmem
              · have hres2 :
                    (create_new_project projects resp (PyV.str s) parent color fav).2 =
                      (match check_status [200] resp with
                       | .error e' => .error e'
                       | .ok r => .ok r.body) := by
                  simp [create_new_project, hdup, hp1, hp2, hres, hfb,
                    post_and_check, normalize_expected]
                rw [hres2] at he
                rcases hcs : check_status [200] resp with e' | r
                · rw [hcs] at he
                  simp only [Except.error.injEq] at he
                  obtain ⟨s0, hs0⟩ := check_status_error [200] resp e' hcs
                  exact hne s0 (by rw [← he, hs0])
                · rw [hcs] at he
                  simp at he

/-- Witness for C8 at a concrete input: an integer new-project name is
rejected with `TypeError` before any network call. -/
theorem create_project_validation_order_witness :
    create_new_project [] ⟨200, PyV.none⟩ (PyV.int 5) PyV.none PyV.none
        (PyV.bool false) = ([], .error .typeError) :=
  (create_project_validation_order [] ⟨200, PyV.none⟩ (PyV.int 5) PyV.none PyV.none
    (PyV.bool false)).1 rfl

/-- `project_exists` never issues a POST. -/
theorem project_exists_no_post (outcome : GetOutcome) (pid : PyV) (u : String)
    (d : List (String × PyV)) (x : PyV) :
    Effect.post u d x ∉ (project_exists outcome pid).1 := by
  cases pid with
  | int n =>
      cases outcome with
      | success p => simp [project_exists]
      | failure err resp =>
          rcases resp with _ | r
          · simp [project_exists]
          · rcases r with _ | st
            · simp [project_exists]
            · by_cases h : (st == 404) = true <;> simp [project_exists, h]
  | none => simp [project_exists]
  | bool b => simp [project_exists]
  | str s => simp [project_exists]
  | list l => simp [project_exists]

/-- `get_all_sections` never issues a POST. -/
theorem get_all_sections_no_post (ap : List Project) (secs : List Int) (pid : PyV)
    (u : String) (d : List (String × PyV)) (x : PyV) :
    Effect.post u d x ∉ (get_all_sections ap secs pid).1 := by
  cases pid with
  | none => simp [get_all_sections]
  | int n =>
      by_cases h : (ap.any fun p => pyEq (.int p.id) (PyV.int n)) = true <;>
        simp [get_all_sections, h, isInt]
  | bool b => simp [get_all_sections, isInt]
  | str s => simp [get_all_sections, isInt]
  | list l => simp [get_all_sections, isInt]

/-- The project step of `create_new_task` never issues a POST. -/
theorem task_project_step_no_post (outcome : GetOutcome) (pid : PyV) (u : String)
    (d : List (String × PyV)) (x : PyV) :
    Effect.post u d x ∉ (task_project_step outcome pid).1 := by
  by_cases h : isNone pid = true
  · simp [task_project_step, h]
  · have hnp := project_exists_no_post outcome pid u d x
    rcases hpe : project_exists outcome pid with ⟨tr, r⟩
    rw [hpe] at hnp
    rcases r with e | b
    · simp [task_project_step, h, hpe, hnp]
    · cases b <;> simp [task_project_step, h, hpe, hnp]

/-- The section step of `create_new_task` never issues a POST. -/
theorem task_section_step_no_post (ap : List Project) (secs : List Int)
    (pid sid : PyV) (u : String) (d : List (String × PyV)) (x : PyV) :
    Effect.post u d x ∉ (task_section_step ap secs pid sid).1 := by
  by_cases h1 : isNone sid = true
  · simp [task_section_step, h1]
  · by_cases h2 : isNone pid = true
    · simp [task_section_step, h1, h2]
    · have hnp := get_all_sections_no_post ap secs pid u d x
      rcases hs : get_all_sections ap secs pid with ⟨tr, r⟩
      rw [hs] at hnp
      rcases r with e | ids
      · simp [task_section_step, h1, h2, hs, hnp]
      · by_cases h3 : (ids.any fun i => pyEq (.int i) sid) = true <;>
          simp [task_section_step, h1, h2, hs, h3, hnp]

/-- The parent step of `create_new_task` never issues a POST. -/
theorem task_parent_step_no_post (ats : List TodoTask) (pid par : PyV) (u : String)
    (d : List (String × PyV)) (x : PyV) :
    Effect.post u d x ∉ (task_parent_step ats pid par).1 := by
  by_cases h1 : isNone par = true
  · simp [task_parent_step, h1]
  · by_cases h2 : (!isInt par) = true
    · simp [task_parent_step, h1, h2]
    · by_cases h3 : (!(ats.any fun t => pyEq (.int t.id) par)) = true
      · simp [task_parent_step, h1, h2, h3]
      · rcases hf : ats.find? (fun t => pyEq (.int t.id) par) with _ | pt
        · simp [task_parent_step, h1, h2, h3, hf]
        · by_cases h4 : isNone pid = true
          · simp [task_parent_step, h1, h2, h3, hf, h4]
          · by_cases h5 : (!pyEq pid (.int pt.project_id)) = true <;>
              simp [task_parent_step, h1, h2, h3, hf, h4, h5]

/-- C10: for every `create_new_task` call in which none of `due_string`,
`due_date` and `due_datetime` is supplied, any payload POSTed to the tasks
endpoint carries `due_string = "Tomorrow"` — a default due date of
tomorrow is silently applied to the new task. -/
theorem create_task_default_due_tomorrow (outcome : GetOutcome)
    (all_projects : List Project) (project_sections : List Int)
    (active_tasks : List TodoTask) (resp : Response)
    (task_name description project_id section_id parent_id order label_ids priority
      due_lang assignee : PyV) (u : String) (d : List (String × PyV)) (x : PyV)
    (hmem : Effect.post u d x ∈
      (create_new_task outcome all_projects project_sections active_tasks resp
        task_name description project_id section_id parent_id order label_ids
        priority PyV.none PyV.none PyV.none due_lang assignee).1) :
    payloadGet d "due_string" = some (PyV.str "Tomorrow") := by
  by_cases h0 : (pyFalsy task_name || !isStr task_name) = true
  · simp [create_new_task, h0] at hmem
  · have np1 := task_project_step_no_post outcome project_id u d x
    rcases hP : task_project_step outcome project_id with ⟨tr1, r1⟩
    rw [hP] at np1
    rcases r1 with e1 | u1
    · simp [create_new_task, h0, hP, np1] at hmem
    · have np2 := task_section_step_no_post all_projects project_sections
        project_id section_id u d x
      rcases hS : task_section_step all_projects project_sections project_id
        section_id with ⟨tr2, r2⟩
      rw [hS] at np2
      rcases r2 with e2 | u2
      · simp [create_new_task, h0, hP, hS, np1, np2] at hmem
      · have np3 := task_parent_step_no_post active_tasks project_id parent_id u d x
        rcases hPar : task_parent_step active_tasks project_id parent_id with ⟨tr3, r3⟩
        rw [hPar] at np3
        rcases r3 with e3 | pid2
        · simp [create_new_task, h0, hP, hS, hPar, np1, np2, np3] at hmem
        · replace np1 : Effect.post u d x ∉ tr1 := by simpa using np1
          replace np2 : Effect.post u d x ∉ tr2 := by simpa using np2
          replace np3 : Effect.post u d x ∉ tr3 := by simpa using np3
          simp [create_new_task, h0, hP, hS, hPar, pyTruthy, pyFalsy, isNone,
            post_and_check] at hmem
          repeat' split at hmem
          all_goals simp [List.mem_append, np1, np2, np3] at hmem
          all_goals (obtain ⟨hu, hd, hx⟩ := hmem; subst hd; rfl)

/-- Witness for C10 at a concrete input: `create_new_task` with only a task
name (everything else at the source's defaults: priority 1, due language
"EN", no due value) posts a payload whose `due_string` is `"Tomorrow"`. -/
theorem create_task_default_due_tomorrow_witness :
    payloadGet (task_payload (PyV.str "test task") PyV.none PyV.none PyV.none
        PyV.none PyV.none PyV.none (PyV.int 1) (PyV.str "EN") PyV.none
        (PyV.str "Tomorrow") PyV.none PyV.none) "due_string" =
      some (PyV.str "Tomorrow") :=
  create_task_default_due_tomorrow (.success ⟨1, "A", 30, false⟩) [] [] []
    ⟨200, PyV.none⟩ (PyV.str "test task") PyV.none PyV.none PyV.none PyV.none
    PyV.none PyV.none (PyV.int 1) (PyV.str "EN") PyV.none tasks_url
    (task_payload (PyV.str "test task") PyV.none PyV.none PyV.none PyV.none
      PyV.none PyV.none (PyV.int 1) (PyV.str "EN") PyV.none (PyV.str "Tomorrow")
      PyV.none PyV.none) (PyV.int 200) (List.Mem.head _)
